import Mathlib

/-!
Shallow embedding of `auth_server/authn/gitea_auth.go` (package `authn`):
the Gitea authenticator with its validated-credential cache.

Modelling conventions:
- Go `time.Time` / `time.Duration` become `Int` (nanoseconds since epoch,
  as in Go's `time.Duration`); `time.Now().After(t)` is `t < now`.
- The bcrypt library (`golang.org/x/crypto/bcrypt`) is an external
  collaborator: it is abstracted as a `BcryptOracle` carrying
  `GenerateFromPassword` (fallible, as in Go) and the boolean outcome of
  `CompareHashAndPassword`.
- The HTTP round trip of `fetchUserOrgs` is abstracted as a
  `RemoteBehavior`: either the request construction fails, the transport
  fails, or a response with a status code, a possible body-read error and
  a body arrives.  A JSON body is modelled post-parse: a well-formed array
  of elements, each either an object (`some org`) or the JSON literal
  `null` (`none`, which Go unmarshals into a nil `*GiteaOrganization`),
  or a malformed body.
- The token database (`TokenDB` of `tokendb.go`, not part of the sources
  at hand) is abstracted through the `World`: the outcome of
  `GetValue(user)` and the error outcome of `StoreToken`.
- Go's multiple returns with `error` become `Except GoError`; a run of
  `Authenticate` additionally records whether `fetchUserOrgs` was reached
  and which `TokenDBValue` (if any) was written to the cache, and a Go
  runtime panic (nil-pointer dereference) is an explicit outcome.
-/

set_option autoImplicit false

namespace GiteaAuthn

/-- `api.Labels`: a map from label name to a list of string values. -/
abbrev Labels := List (String × List String)

/-- `GiteaAuthConfig` from `gitea_auth.go` (yaml keys `api_uri`,
`token_db`, `http_timeout`, `revalidate_after`).  Durations are in
nanoseconds, as Go's `time.Duration`. -/
structure GiteaAuthConfig where
  ApiUri : String
  TokenDB : String
  HTTPTimeout : Int
  RevalidateAfter : Int
deriving DecidableEq, Repr

/-- `GiteaOrganization` from `gitea_auth.go`. -/
structure GiteaOrganization where
  Id : Int
  Name : String
  FullName : String
  Username : String
  AvatarUrl : String
  Description : String
  Location : String
  Website : String
deriving DecidableEq, Repr

/-- Modelled from the spec: the `CachedCredentialRecord` persisted by the
Token Cache.  The concrete Go type is `TokenDBValue` (defined in
`tokendb.go`, which is not among the sources); the fields are the ones
`gitea_auth.go` reads and writes: `TokenType`, `AccessToken` (the
`proofHash`), `ValidUntil` and `Labels`. -/
structure TokenDBValue where
  TokenType : String
  AccessToken : String
  ValidUntil : Int
  Labels : Labels
deriving DecidableEq, Repr

/-- The error values distinguishable by this component: `api.WrongPass`,
`api.NoMatch`, `ExpiredToken` (sentinel errors of the surrounding
packages) and anonymous operational errors built with `fmt.Errorf` or
returned by collaborators (`Msg`). -/
inductive GoError where
  | WrongPass
  | NoMatch
  | ExpiredToken
  | Msg (s : String)
deriving DecidableEq, Repr

/-- The bcrypt collaborator (`golang.org/x/crypto/bcrypt`), abstracted:
`generate` is `GenerateFromPassword` (`.error` when it fails, carrying the
error text), `verify hash pw` is true exactly when
`CompareHashAndPassword([]byte(hash), []byte(pw))` returns nil. -/
structure BcryptOracle where
  generate : String → Except String String
  verify : String → String → Bool

/-- A response body as seen after `json.Unmarshal` into
`[]*GiteaOrganization`: a JSON array whose elements are objects
(`some org`) or `null` (`none`, giving a nil pointer), or a body that
fails to parse. -/
inductive JsonBody where
  | arr (elems : List (Option GiteaOrganization))
  | malformed (msg : String)
deriving DecidableEq, Repr

/-- The behaviour of the remote Gitea endpoint for one call of
`fetchUserOrgs`: `http.NewRequest` fails, `client.Do` fails, or a
response arrives with a status code, a possible `io.ReadAll` error and a
body. -/
inductive RemoteBehavior where
  | reqErr (msg : String)
  | transportErr (msg : String)
  | resp (statusCode : Int) (readErr : Option String) (body : JsonBody)
deriving DecidableEq, Repr

/-- The external world for one `Authenticate` call: the current time, the
result of `gta.db.GetValue(user)`, the error outcome (if any) of
`gta.db.StoreToken`, and the remote endpoint's behaviour. -/
structure World where
  now : Int
  dbGet : Except GoError (Option TokenDBValue)
  dbStoreErr : Option GoError
  remote : RemoteBehavior

/-- `getApiUri`: the configured API URI, defaulting to the public Gitea
instance. -/
def getApiUri (c : GiteaAuthConfig) : String :=
  if c.ApiUri != "" then c.ApiUri else "https://gitea.com/api"

/-- `getUserToken`: `fmt.Sprintf("%s:%s", user, string(password))`. -/
def getUserToken (user : String) (password : String) : String :=
  user ++ ":" ++ password

/-- `fetchUserOrgs`: the remote membership lookup.  Status 401 yields
`api.WrongPass`; any other non-200 status, request/transport failure,
body-read failure or parse failure yields an operational `Msg` error;
status 200 with a parseable array succeeds. -/
def fetchUserOrgs (remote : RemoteBehavior) :
    Except GoError (List (Option GiteaOrganization)) :=
  match remote with
  | .reqErr msg => .error (.Msg ("could not create request to gitea api: " ++ msg))
  | .transportErr msg => .error (.Msg msg)
  | .resp statusCode readErr body =>
    if statusCode = 401 then
      .error .WrongPass
    else if statusCode ≠ 200 then
      .error (.Msg ("could not get user orgs, statusCode: " ++ toString statusCode))
    else
      match readErr with
      | some msg => .error (.Msg ("could not read response body: " ++ msg))
      | none =>
        match body with
        | .malformed msg => .error (.Msg ("could not parse gitea response: " ++ msg))
        | .arr orgs => .ok orgs

/-- `getValidToken`: read the cached record; no record is `api.NoMatch`,
a record whose `AccessToken` does not bcrypt-verify against
`getUserToken user password` is `api.WrongPass`, a record past its
`ValidUntil` is `ExpiredToken`; otherwise the record is returned. -/
def getValidToken (bo : BcryptOracle) (w : World) (user : String)
    (password : String) : Except GoError TokenDBValue :=
  let userPasswd := getUserToken user password
  match w.dbGet with
  | .error err => .error err
  | .ok none => .error .NoMatch
  | .ok (some dbv) =>
    if !(bo.verify dbv.AccessToken userPasswd) then
      .error .WrongPass
    else if dbv.ValidUntil < w.now then
      .error .ExpiredToken
    else
      .ok dbv

/-- `storeToken`: bcrypt-hash `getUserToken user password`, build the
`TokenDBValue` (type `Basic`, `ValidUntil = now + RevalidateAfter`, the
given labels) and hand it to `db.StoreToken`.  On success the model
returns the value that was written, to expose the cache write. -/
def storeToken (bo : BcryptOracle) (cfg : GiteaAuthConfig) (w : World)
    (user : String) (password : String) (labels : Labels) :
    Except GoError TokenDBValue :=
  let userPasswd := getUserToken user password
  match bo.generate userPasswd with
  | .error e => .error (.Msg ("could not hash password: " ++ e))
  | .ok dph =>
    let v : TokenDBValue :=
      { TokenType := "Basic"
        AccessToken := dph
        ValidUntil := w.now + cfg.RevalidateAfter
        Labels := labels }
    match w.dbStoreErr with
    | some err => .error err
    | none => .ok v

/-- The `for _, org := range orgs` loop of `Authenticate`: collect
`org.Name` left to right; a nil element (`none`) makes the Go code
dereference a nil pointer, modelled as `none` (a runtime panic). -/
def collectGroups : List (Option GiteaOrganization) → Option (List String)
  | [] => some []
  | none :: _ => none
  | some org :: rest => (collectGroups rest).map (fun gs => org.Name :: gs)

/-- What one `Authenticate` call returns: a normal Go return
`(ok, labels, err)` (a nil labels map is `none`) or a runtime panic. -/
inductive AuthResult where
  | ret (ok : Bool) (labels : Option Labels) (err : Option GoError)
  | panicked (msg : String)
deriving DecidableEq, Repr

/-- The observable outcome of one `Authenticate` call: the returned
value, whether `fetchUserOrgs` was invoked, and the record written to the
cache (if any). -/
structure AuthOutcome where
  result : AuthResult
  resolverCalled : Bool
  written : Option TokenDBValue
deriving DecidableEq, Repr

/-- The fall-through branch of `Authenticate`, reached whenever
`getValidToken` returns an error: call `fetchUserOrgs`, build the
`"group"` labels from the organization names, store the token, return. -/
def remotePath (bo : BcryptOracle) (cfg : GiteaAuthConfig) (w : World)
    (user : String) (password : String) : AuthOutcome :=
  match fetchUserOrgs w.remote with
  | .error err => ⟨.ret false none (some err), true, none⟩
  | .ok orgs =>
    match collectGroups orgs with
    | none =>
      ⟨.panicked "runtime error: invalid memory address or nil pointer dereference",
        true, none⟩
    | some groups =>
      let labels : Labels := [("group", groups)]
      match storeToken bo cfg w user password labels with
      | .error err => ⟨.ret false none (some err), true, none⟩
      | .ok v => ⟨.ret true (some labels) none, true, some v⟩

/-- `Authenticate`: accept from the cache when `getValidToken` succeeds;
on any `getValidToken` error fall through to the remote path. -/
def Authenticate (bo : BcryptOracle) (cfg : GiteaAuthConfig) (w : World)
    (user : String) (password : String) : AuthOutcome :=
  match getValidToken bo w user password with
  | .ok dbv => ⟨.ret true (some dbv.Labels) none, false, none⟩
  | .error _ => remotePath bo cfg w user password

/-- Go's `time.Second` in nanoseconds. -/
def goSecond : Int := 1000000000

/-- The constructed authenticator: its configuration and the `Timeout`
field of the `http.Client` it builds. -/
structure GiteaAuth where
  config : GiteaAuthConfig
  clientTimeout : Int
deriving DecidableEq, Repr

/-- `NewGiteaAuth`: propagate a `NewTokenDB` failure, otherwise build the
authenticator whose `http.Client` has `Timeout: 10 * time.Second`. -/
def NewGiteaAuth (c : GiteaAuthConfig) (dbInit : Except GoError Unit) :
    Except GoError GiteaAuth :=
  match dbInit with
  | .error err => .error err
  | .ok _ => .ok { config := c, clientTimeout := 10 * goSecond }

/-! Concrete fixtures used by witnesses and counterexamples. -/

/-- A demonstration bcrypt oracle: hashing prefixes a marker, verification
compares against the rehash (so a hash made from a credential verifies
exactly against that credential). -/
def bcDemo : BcryptOracle :=
  { generate := fun s => .ok ("$2a$hash$" ++ s)
    verify := fun h s => h == "$2a$hash$" ++ s }

/-- A demonstration bcrypt oracle whose hashes reveal only the length of
the input. -/
def bcOpaque : BcryptOracle :=
  { generate := fun s => .ok ("h" ++ toString s.length)
    verify := fun h s => h == "h" ++ toString s.length }

/-- A demonstration configuration (revalidation window of 3600 time units). -/
def cfgDemo : GiteaAuthConfig :=
  { ApiUri := "", TokenDB := "tokens.db", HTTPTimeout := 0, RevalidateAfter := 3600 }

/-- A cached record for user `alice` with credential `secret` under
`bcDemo`, valid until time 1000. -/
def recAlice : TokenDBValue :=
  { TokenType := "Basic"
    AccessToken := "$2a$hash$alice:secret"
    ValidUntil := 1000
    Labels := [("group", ["cachedTeam"])] }

/-- A remote organization named `teamB`. -/
def orgTeamB : GiteaOrganization :=
  { Id := 7, Name := "teamB", FullName := "Team B", Username := "teamB"
    AvatarUrl := "", Description := "", Location := "", Website := "" }

/-- Cached record present, remote would accept and return `teamB`. -/
def worldMismatch : World :=
  { now := 500
    dbGet := .ok (some recAlice)
    dbStoreErr := none
    remote := .resp 200 none (.arr [some orgTeamB]) }

/-- No cached record, remote accepts, but the cache write fails. -/
def worldStoreFail : World :=
  { now := 500
    dbGet := .ok none
    dbStoreErr := some (.Msg "disk full")
    remote := .resp 200 none (.arr [some orgTeamB]) }

/-- No cached record, remote accepts with no organizations. -/
def worldMiss : World :=
  { now := 500
    dbGet := .ok none
    dbStoreErr := none
    remote := .resp 200 none (.arr []) }

/-- Valid cached record for `alice`, read at time 500 < 1000. -/
def worldHit : World :=
  { now := 500
    dbGet := .ok (some recAlice)
    dbStoreErr := none
    remote := .resp 200 none (.arr []) }

/-- Cached record for `alice` read at time 2000, past its `ValidUntil`. -/
def worldExpired : World :=
  { now := 2000
    dbGet := .ok (some recAlice)
    dbStoreErr := none
    remote := .resp 401 none (.arr []) }

/-- No cached record and the remote rejects with status 401. -/
def world401 : World :=
  { now := 500
    dbGet := .ok none
    dbStoreErr := none
    remote := .resp 401 none (.arr []) }

/-- No cached record, remote accepts with `teamB`, cache write succeeds. -/
def worldSuccess : World :=
  { now := 500
    dbGet := .ok none
    dbStoreErr := none
    remote := .resp 200 none (.arr [some orgTeamB]) }

/-- No cached record, remote answers 200 with the JSON body `[null]`. -/
def worldNullOrg : World :=
  { now := 500
    dbGet := .ok none
    dbStoreErr := none
    remote := .resp 200 none (.arr [none]) }

/-- A configuration that asks for a 30-second HTTP timeout. -/
def cfgTimeout30 : GiteaAuthConfig :=
  { ApiUri := "", TokenDB := "", HTTPTimeout := 30 * goSecond, RevalidateAfter := 0 }

/-- The record `Authenticate` writes at `worldSuccess` under `bcDemo`. -/
def vStored : TokenDBValue :=
  { TokenType := "Basic"
    AccessToken := "$2a$hash$alice:secret"
    ValidUntil := 500 + 3600
    Labels := [("group", ["teamB"])] }

/-- The record `storeToken` writes at `worldMiss` under `bcOpaque` for
`alice`/`secret` (the plainProof `alice:secret` has length 12). -/
def vOpq : TokenDBValue :=
  { TokenType := "Basic"
    AccessToken := "h12"
    ValidUntil := 500 + 3600
    Labels := [("group", ["teamB"])] }

/-! Helper lemmas. -/

theorem string_data_inj {a b : String} (h : a.data = b.data) : a = b := by
  cases a
  cases b
  exact congrArg String.mk h

theorem remotePath_resolverCalled (bo : BcryptOracle) (cfg : GiteaAuthConfig)
    (w : World) (user password : String) :
    (remotePath bo cfg w user password).resolverCalled = true := by
  unfold remotePath
  split
  · rfl
  split
  · rfl
  dsimp only
  split
  all_goals rfl

theorem authenticate_eq_remotePath_of_error (bo : BcryptOracle)
    (cfg : GiteaAuthConfig) (w : World) (user password : String) (e : GoError)
    (h : getValidToken bo w user password = .error e) :
    Authenticate bo cfg w user password = remotePath bo cfg w user password := by
  unfold Authenticate
  rw [h]

theorem getValidToken_miss (bo : BcryptOracle) (w : World)
    (user password : String) (hget : w.dbGet = .ok none) :
    getValidToken bo w user password = .error .NoMatch := by
  unfold getValidToken
  rw [hget]

theorem getValidToken_mismatch (bo : BcryptOracle) (w : World)
    (user password : String) (dbv : TokenDBValue)
    (hget : w.dbGet = .ok (some dbv))
    (hver : bo.verify dbv.AccessToken (getUserToken user password) = false) :
    getValidToken bo w user password = .error .WrongPass := by
  unfold getValidToken
  rw [hget]
  simp [hver]

theorem getValidToken_hit (bo : BcryptOracle) (w : World)
    (user password : String) (dbv : TokenDBValue)
    (hget : w.dbGet = .ok (some dbv))
    (hver : bo.verify dbv.AccessToken (getUserToken user password) = true)
    (hvalid : w.now ≤ dbv.ValidUntil) :
    getValidToken bo w user password = .ok dbv := by
  unfold getValidToken
  rw [hget]
  simp [hver, not_lt.mpr hvalid]

theorem getValidToken_expired (bo : BcryptOracle) (w : World)
    (user password : String) (dbv : TokenDBValue)
    (hget : w.dbGet = .ok (some dbv))
    (hver : bo.verify dbv.AccessToken (getUserToken user password) = true)
    (hexp : dbv.ValidUntil < w.now) :
    getValidToken bo w user password = .error .ExpiredToken := by
  unfold getValidToken
  rw [hget]
  simp [hver, hexp]

theorem collectGroups_map_some (orgs : List GiteaOrganization) :
    collectGroups (orgs.map some) = some (orgs.map (fun o => o.Name)) := by
  induction orgs with
  | nil => rfl
  | cons o rest ih => simp [collectGroups, ih]

/-! Claim C1. -/

/-- C1, counterexample: with a cached record for `alice` whose stored proof
does not verify against the offered credential, `Authenticate` nevertheless
invokes the resolver — and here even returns ok with the fresh remote
labels — instead of failing with `WrongPass` without a resolver call. -/
theorem mismatch_short_circuit_counterexample :
    worldMismatch.dbGet = .ok (some recAlice) ∧
    bcDemo.verify recAlice.AccessToken (getUserToken "alice" "other") = false ∧
    (Authenticate bcDemo cfgDemo worldMismatch "alice" "other").resolverCalled = true ∧
    (Authenticate bcDemo cfgDemo worldMismatch "alice" "other").result =
      .ret true (some [("group", ["teamB"])]) none :=
  ⟨rfl, rfl, rfl, rfl⟩

/-- C1 (amended): when the cache holds a record for the user whose stored
proofHash does not verify against the plainProof built from
(user, password), `Authenticate` does not accept from the cache; it falls
through to the remote path, so the resolver IS invoked and the outcome is
exactly that of a fresh remote resolution. -/
theorem authenticate_mismatch_falls_through_to_resolver
    (bo : BcryptOracle) (cfg : GiteaAuthConfig) (w : World)
    (user password : String) (dbv : TokenDBValue)
    (hget : w.dbGet = .ok (some dbv))
    (hver : bo.verify dbv.AccessToken (getUserToken user password) = false) :
    Authenticate bo cfg w user password = remotePath bo cfg w user password ∧
    (Authenticate bo cfg w user password).resolverCalled = true := by
  have h := getValidToken_mismatch bo w user password dbv hget hver
  have he := authenticate_eq_remotePath_of_error bo cfg w user password .WrongPass h
  exact ⟨he, by rw [he]; exact remotePath_resolverCalled bo cfg w user password⟩

/-- C1, witness for the amended theorem at a concrete mismatching world. -/
theorem authenticate_mismatch_falls_through_to_resolver_witness :
    Authenticate bcDemo cfgDemo worldMismatch "alice" "other" =
      remotePath bcDemo cfgDemo worldMismatch "alice" "other" ∧
    (Authenticate bcDemo cfgDemo worldMismatch "alice" "other").resolverCalled = true :=
  authenticate_mismatch_falls_through_to_resolver bcDemo cfgDemo worldMismatch
    "alice" "other" recAlice rfl (by decide)

/-! Claim C2. -/

/-- C2, counterexample: no cached record, the remote resolver succeeds with
`teamB`, the cache write fails — and `Authenticate` returns ok=false with
the storage error instead of ok=true with the fresh labels. -/
theorem store_failure_still_succeeds_counterexample :
    worldStoreFail.dbGet = .ok none ∧
    fetchUserOrgs worldStoreFail.remote = .ok [some orgTeamB] ∧
    (Authenticate bcDemo cfgDemo worldStoreFail "alice" "pw").result =
      .ret false none (some (.Msg "disk full")) :=
  ⟨rfl, rfl, rfl⟩

/-- C2 (amended): when the cache yields no usable record, the remote
resolver succeeds, and the subsequent cache write fails with error `e`,
`Authenticate` returns ok=false with `e` and writes nothing: the cache
write is on the success-critical path, not best-effort. -/
theorem authenticate_store_failure_fails_call
    (bo : BcryptOracle) (cfg : GiteaAuthConfig) (w : World)
    (user password : String) (e₀ e : GoError)
    (orgs : List (Option GiteaOrganization)) (groups : List String)
    (hmiss : getValidToken bo w user password = .error e₀)
    (hfetch : fetchUserOrgs w.remote = .ok orgs)
    (hgroups : collectGroups orgs = some groups)
    (hstore : storeToken bo cfg w user password [("group", groups)] = .error e) :
    Authenticate bo cfg w user password = ⟨.ret false none (some e), true, none⟩ := by
  rw [authenticate_eq_remotePath_of_error bo cfg w user password e₀ hmiss]
  unfold remotePath
  rw [hfetch]
  dsimp only
  rw [hgroups]
  dsimp only
  rw [hstore]

/-- C2, witness for the amended theorem at a concrete store-failure world. -/
theorem authenticate_store_failure_fails_call_witness :
    Authenticate bcDemo cfgDemo worldStoreFail "alice" "pw" =
      ⟨.ret false none (some (.Msg "disk full")), true, none⟩ :=
  authenticate_store_failure_fails_call bcDemo cfgDemo worldStoreFail "alice" "pw"
    .NoMatch (.Msg "disk full") [some orgTeamB] ["teamB"] rfl rfl rfl rfl

/-! Claim C3. -/

/-- C3: if no cache record exists for the user, `Authenticate` invokes the
resolver; if a record exists whose proof verifies and whose `ValidUntil`
has not passed, `Authenticate` returns true with the cached labels and the
resolver is not invoked (and nothing is written). -/
theorem authenticate_cache_correctness
    (bo : BcryptOracle) (cfg : GiteaAuthConfig) (w : World)
    (user password : String) :
    (w.dbGet = .ok none →
      (Authenticate bo cfg w user password).resolverCalled = true) ∧
    (∀ dbv : TokenDBValue, w.dbGet = .ok (some dbv) →
      bo.verify dbv.AccessToken (getUserToken user password) = true →
      w.now ≤ dbv.ValidUntil →
      Authenticate bo cfg w user password =
        ⟨.ret true (some dbv.Labels) none, false, none⟩) := by
  constructor
  · intro hmiss
    have h := getValidToken_miss bo w user password hmiss
    rw [authenticate_eq_remotePath_of_error bo cfg w user password .NoMatch h]
    exact remotePath_resolverCalled bo cfg w user password
  · intro dbv hget hver hvalid
    have h := getValidToken_hit bo w user password dbv hget hver hvalid
    unfold Authenticate
    rw [h]

/-- C3, witness: a concrete miss world where the resolver is reached, and a
concrete valid-hit world where the cached labels are returned without the
resolver. -/
theorem authenticate_cache_correctness_witness :
    (Authenticate bcDemo cfgDemo worldMiss "alice" "secret").resolverCalled = true ∧
    Authenticate bcDemo cfgDemo worldHit "alice" "secret" =
      ⟨.ret true (some [("group", ["cachedTeam"])]) none, false, none⟩ :=
  ⟨(authenticate_cache_correctness bcDemo cfgDemo worldMiss "alice" "secret").1 rfl,
   (authenticate_cache_correctness bcDemo cfgDemo worldHit "alice" "secret").2
     recAlice rfl (by decide) (by decide)⟩

/-! Claim C4. -/

/-- C4: a cached record whose `ValidUntil` lies strictly in the past is
never accepted from the cache, even when its proof verifies:
`Authenticate` behaves exactly as a fresh remote resolution, and the
resolver is invoked. -/
theorem authenticate_expired_record_refreshes
    (bo : BcryptOracle) (cfg : GiteaAuthConfig) (w : World)
    (user password : String) (dbv : TokenDBValue)
    (hget : w.dbGet = .ok (some dbv))
    (hver : bo.verify dbv.AccessToken (getUserToken user password) = true)
    (hexp : dbv.ValidUntil < w.now) :
    Authenticate bo cfg w user password = remotePath bo cfg w user password ∧
    (Authenticate bo cfg w user password).resolverCalled = true := by
  have h := getValidToken_expired bo w user password dbv hget hver hexp
  have he := authenticate_eq_remotePath_of_error bo cfg w user password .ExpiredToken h
  exact ⟨he, by rw [he]; exact remotePath_resolverCalled bo cfg w user password⟩

/-- C4, witness: the matching record for `alice` expired at 1000, read at
2000; the call performs the remote path (which here rejects). -/
theorem authenticate_expired_record_refreshes_witness :
    Authenticate bcDemo cfgDemo worldExpired "alice" "secret" =
      remotePath bcDemo cfgDemo worldExpired "alice" "secret" ∧
    (Authenticate bcDemo cfgDemo worldExpired "alice" "secret").resolverCalled = true :=
  authenticate_expired_record_refreshes bcDemo cfgDemo worldExpired "alice" "secret"
    recAlice rfl (by decide) (by decide)

/-! Claim C5. -/

/-- C5: the cache is written only on the success path: nothing is written
on a valid cache hit, nothing is written when the resolver rejects or
fails, and whenever a record is written the resolver succeeded, the
`"group"` labels were built, `storeToken` succeeded on exactly that
record, and the call returned ok=true. -/
theorem authenticate_writes_only_after_remote_success
    (bo : BcryptOracle) (cfg : GiteaAuthConfig) (w : World)
    (user password : String) :
    (∀ dbv : TokenDBValue, getValidToken bo w user password = .ok dbv →
      (Authenticate bo cfg w user password).written = none) ∧
    (∀ e : GoError, fetchUserOrgs w.remote = .error e →
      (Authenticate bo cfg w user password).written = none) ∧
    (∀ v : TokenDBValue, (Authenticate bo cfg w user password).written = some v →
      ∃ orgs groups, fetchUserOrgs w.remote = .ok orgs ∧
        collectGroups orgs = some groups ∧
        storeToken bo cfg w user password [("group", groups)] = .ok v ∧
        (Authenticate bo cfg w user password).result =
          .ret true (some [("group", groups)]) none) := by
  refine ⟨?_, ?_, ?_⟩
  · intro dbv h
    unfold Authenticate
    rw [h]
  · intro e hfetch
    unfold Authenticate
    rcases h : getValidToken bo w user password with e₀ | dbv
    · unfold remotePath
      rw [hfetch]
    · rfl
  · intro v hv
    unfold Authenticate at hv ⊢
    rcases h : getValidToken bo w user password with e₀ | dbv
    · rw [h] at hv
      unfold remotePath at hv ⊢
      rcases hfetch : fetchUserOrgs w.remote with e₁ | orgs
      · rw [hfetch] at hv
        exact absurd hv (by simp)
      · rw [hfetch] at hv
        dsimp only at hv ⊢
        rcases hgroups : collectGroups orgs with _ | groups
        · rw [hgroups] at hv
          exact absurd hv (by simp)
        · rw [hgroups] at hv
          dsimp only at hv ⊢
          rcases hstore : storeToken bo cfg w user password [("group", groups)]
            with e₂ | v₂
          · rw [hstore] at hv
            exact absurd hv (by simp)
          · rw [hstore] at hv
            dsimp only at hv
            obtain rfl : v₂ = v := by simpa using hv
            exact ⟨orgs, groups, rfl, hgroups, hstore, rfl⟩
    · rw [h] at hv
      exact absurd hv (by simp)

/-- C5, witness: no write on a valid cache hit; no write when the remote
rejects with 401; and the record written at a successful fresh resolution
is exactly the one `storeToken` produced, with the call returning ok. -/
theorem authenticate_writes_only_after_remote_success_witness :
    (Authenticate bcDemo cfgDemo worldHit "alice" "secret").written = none ∧
    (Authenticate bcDemo cfgDemo world401 "alice" "secret").written = none ∧
    (∃ orgs groups, fetchUserOrgs worldSuccess.remote = .ok orgs ∧
      collectGroups orgs = some groups ∧
      storeToken bcDemo cfgDemo worldSuccess "alice" "secret"
        [("group", groups)] = .ok vStored ∧
      (Authenticate bcDemo cfgDemo worldSuccess "alice" "secret").result =
        .ret true (some [("group", groups)]) none) :=
  ⟨(authenticate_writes_only_after_remote_success bcDemo cfgDemo worldHit
      "alice" "secret").1 recAlice rfl,
   (authenticate_writes_only_after_remote_success bcDemo cfgDemo world401
      "alice" "secret").2.1 .WrongPass rfl,
   (authenticate_writes_only_after_remote_success bcDemo cfgDemo worldSuccess
      "alice" "secret").2.2 vStored (by decide)⟩

/-! Claim C6. -/

/-- C6, counterexample: the separator `:` may occur in the fields, so two
distinct (user, password) pairs yield the same plainProof. -/
theorem getUserToken_injectivity_counterexample :
    getUserToken "a:b" "c" = getUserToken "a" "b:c" ∧
    ¬ ((("a:b" : String), ("c" : String)) = (("a" : String), ("b:c" : String))) :=
  ⟨rfl, by decide⟩

theorem colonFree_append_cancel (l₁ : List Char) :
    ∀ (l₂ r₁ r₂ : List Char), ':' ∉ l₁ → ':' ∉ l₂ →
      l₁ ++ ':' :: r₁ = l₂ ++ ':' :: r₂ → l₁ = l₂ ∧ r₁ = r₂ := by
  induction l₁ with
  | nil =>
    intro l₂ r₁ r₂ _ h₂ h
    cases l₂ with
    | nil => simpa using h
    | cons b bs =>
      exfalso
      simp only [List.nil_append, List.cons_append, List.cons.injEq] at h
      exact h₂ (by rw [h.1]; exact List.mem_cons_self b bs)
  | cons a as ih =>
    intro l₂ r₁ r₂ h₁ h₂ h
    cases l₂ with
    | nil =>
      exfalso
      simp only [List.cons_append, List.nil_append, List.cons.injEq] at h
      exact h₁ (by rw [← h.1]; exact List.mem_cons_self a as)
    | cons b bs =>
      simp only [List.cons_append, List.cons.injEq] at h
      obtain ⟨hab, hrest⟩ := h
      have h₁' : ':' ∉ as := fun hm => h₁ (List.mem_cons_of_mem a hm)
      have h₂' : ':' ∉ bs := fun hm => h₂ (List.mem_cons_of_mem b hm)
      obtain ⟨hl, hr⟩ := ih bs r₁ r₂ h₁' h₂' hrest
      exact ⟨by rw [hab, hl], hr⟩

/-- C6 (amended): `getUserToken` is injective on the pairs whose username
does not contain the separator character `:`; with a `:` in the username
distinct pairs can collide (see the counterexample). -/
theorem getUserToken_injective_on_colonFree_users
    (u₁ p₁ u₂ p₂ : String)
    (h₁ : ':' ∉ u₁.data) (h₂ : ':' ∉ u₂.data)
    (h : getUserToken u₁ p₁ = getUserToken u₂ p₂) :
    u₁ = u₂ ∧ p₁ = p₂ := by
  have hd : u₁.data ++ ':' :: p₁.data = u₂.data ++ ':' :: p₂.data := by
    have hc := congrArg String.data h
    simp only [getUserToken, String.data_append] at hc
    simpa using hc
  obtain ⟨hu, hp⟩ := colonFree_append_cancel u₁.data u₂.data p₁.data p₂.data h₁ h₂ hd
  exact ⟨string_data_inj hu, string_data_inj hp⟩

/-- C6, witness for the amended theorem at a concrete colon-free user. -/
theorem getUserToken_injective_on_colonFree_users_witness :
    ("alice" : String) = "alice" ∧ ("pw" : String) = "pw" :=
  getUserToken_injective_on_colonFree_users "alice" "pw" "alice" "pw"
    (by decide) (by decide) rfl

/-! Claim C7. -/

/-- C7 (code bug): `NewGiteaAuth` constructs its HTTP client with a fixed
timeout of 10 seconds; the configured `HTTPTimeout` — here 30 seconds —
is declared in `GiteaAuthConfig` but ignored, so the client timeout does
not equal the configured value. -/
theorem newGiteaAuth_ignores_configured_timeout :
    NewGiteaAuth cfgTimeout30 (.ok ()) =
      .ok { config := cfgTimeout30, clientTimeout := 10 * goSecond } ∧
    10 * goSecond ≠ cfgTimeout30.HTTPTimeout :=
  ⟨rfl, by decide⟩

/-! Claim C8. -/

theorem fetchUserOrgs_on_ok_response (orgs : List (Option GiteaOrganization)) :
    fetchUserOrgs (.resp 200 none (.arr orgs)) = .ok orgs := rfl

/-- C8: `fetchUserOrgs` distinguishes exactly three outcomes: 401 yields
`api.WrongPass`; a transport failure, any other non-200 status, or an
unparseable body yields an operational `Msg` error distinct from
`WrongPass`; 200 with a parseable array succeeds, and on the fresh-
resolution path each organization name becomes a `"group"` label value of
`Authenticate`. -/
theorem fetchUserOrgs_three_outcomes
    (bo : BcryptOracle) (cfg : GiteaAuthConfig) (w : World)
    (user password dph : String) (code : Int) (readErr : Option String)
    (body : JsonBody) (msg msg₂ : String) (orgs : List GiteaOrganization) :
    (fetchUserOrgs (.resp 401 readErr body) = .error .WrongPass) ∧
    (fetchUserOrgs (.transportErr msg) = .error (.Msg msg) ∧
      GoError.Msg msg ≠ .WrongPass) ∧
    (code ≠ 401 → code ≠ 200 →
      fetchUserOrgs (.resp code readErr body) =
        .error (.Msg ("could not get user orgs, statusCode: " ++ toString code)) ∧
      GoError.Msg ("could not get user orgs, statusCode: " ++ toString code) ≠
        .WrongPass) ∧
    (fetchUserOrgs (.resp 200 none (.malformed msg₂)) =
        .error (.Msg ("could not parse gitea response: " ++ msg₂)) ∧
      GoError.Msg ("could not parse gitea response: " ++ msg₂) ≠ .WrongPass) ∧
    (w.dbGet = .ok none →
      w.remote = .resp 200 none (.arr (orgs.map some)) →
      w.dbStoreErr = none →
      bo.generate (getUserToken user password) = .ok dph →
      Authenticate bo cfg w user password =
        ⟨.ret true (some [("group", orgs.map (fun o => o.Name))]) none, true,
          some { TokenType := "Basic", AccessToken := dph,
                 ValidUntil := w.now + cfg.RevalidateAfter,
                 Labels := [("group", orgs.map (fun o => o.Name))] }⟩) := by
  refine ⟨rfl, ⟨rfl, by simp⟩, ?_, ⟨rfl, by simp⟩, ?_⟩
  · intro h1 h2
    refine ⟨?_, by simp⟩
    simp [fetchUserOrgs, h1, h2]
  · intro hget hremote hstoreErr hgen
    have h := getValidToken_miss bo w user password hget
    rw [authenticate_eq_remotePath_of_error bo cfg w user password .NoMatch h]
    unfold remotePath
    rw [hremote, fetchUserOrgs_on_ok_response]
    dsimp only
    rw [collectGroups_map_some]
    dsimp only
    unfold storeToken
    dsimp only
    rw [hgen]
    dsimp only
    rw [hstoreErr]

/-- C8, witness: the five cases at concrete inputs, including a fresh
resolution for `alice` returning the single organization `teamB`. -/
theorem fetchUserOrgs_three_outcomes_witness :
    (fetchUserOrgs (.resp 401 none (.arr [])) = .error .WrongPass) ∧
    (fetchUserOrgs (.transportErr "connection refused") =
        .error (.Msg "connection refused") ∧
      GoError.Msg "connection refused" ≠ .WrongPass) ∧
    (fetchUserOrgs (.resp 500 none (.arr [])) =
        .error (.Msg ("could not get user orgs, statusCode: " ++ toString (500 : Int))) ∧
      GoError.Msg ("could not get user orgs, statusCode: " ++ toString (500 : Int)) ≠
        .WrongPass) ∧
    (fetchUserOrgs (.resp 200 none (.malformed "bad json")) =
        .error (.Msg ("could not parse gitea response: " ++ "bad json")) ∧
      GoError.Msg ("could not parse gitea response: " ++ "bad json") ≠ .WrongPass) ∧
    (Authenticate bcDemo cfgDemo worldSuccess "alice" "secret" =
      ⟨.ret true (some [("group", [orgTeamB].map (fun o => o.Name))]) none, true,
        some { TokenType := "Basic", AccessToken := "$2a$hash$alice:secret",
               ValidUntil := worldSuccess.now + cfgDemo.RevalidateAfter,
               Labels := [("group", [orgTeamB].map (fun o => o.Name))] }⟩) := by
  have H := fetchUserOrgs_three_outcomes bcDemo cfgDemo worldSuccess "alice" "secret"
    "$2a$hash$alice:secret" 500 none (.arr []) "connection refused" "bad json" [orgTeamB]
  have H3 := H.2.2.1 (by decide) (by decide)
  have H5 := H.2.2.2.2 rfl rfl rfl rfl
  exact ⟨H.1, ⟨H.2.1.1, H.2.1.2⟩, H3, H.2.2.2.1, H5⟩

/-! Claim C9. -/

/-- C9: a successfully stored record has `AccessToken` equal to exactly
the bcrypt hash of the plainProof `getUserToken user password`; its other
fields are `"Basic"`, `now + RevalidateAfter` and the given labels; and
the whole stored record depends on the raw credential only through that
bcrypt hash, so no field carries the raw credential itself. -/
theorem storeToken_no_plaintext
    (bo : BcryptOracle) (cfg : GiteaAuthConfig) (w : World)
    (user password : String) (labels : Labels) (v : TokenDBValue)
    (h : storeToken bo cfg w user password labels = .ok v) :
    bo.generate (getUserToken user password) = .ok v.AccessToken ∧
    v.TokenType = "Basic" ∧
    v.ValidUntil = w.now + cfg.RevalidateAfter ∧
    v.Labels = labels ∧
    (∀ password₂ : String,
      bo.generate (getUserToken user password₂) =
        bo.generate (getUserToken user password) →
      storeToken bo cfg w user password₂ labels = .ok v) := by
  unfold storeToken at h
  dsimp only at h
  rcases hgen : bo.generate (getUserToken user password) with e | dph
  · rw [hgen] at h
    exact absurd h (by simp)
  · rw [hgen] at h
    dsimp only at h
    rcases hse : w.dbStoreErr with _ | e₂
    · rw [hse] at h
      dsimp only at h
      injection h with hv
      subst hv
      refine ⟨rfl, rfl, rfl, rfl, ?_⟩
      intro password₂ hgen₂
      unfold storeToken
      dsimp only
      rw [hgen₂]
      dsimp only
      rw [hse]
    · rw [hse] at h
      exact absurd h (by simp)

/-- C9, witness: under an oracle whose hashes reveal only the input
length, the record stored for `alice`/`secret` has the hash as its
`AccessToken` and is reproduced verbatim by the equal-hash credential
`zzzzzz`. -/
theorem storeToken_no_plaintext_witness :
    bcOpaque.generate (getUserToken "alice" "secret") = .ok vOpq.AccessToken ∧
    vOpq.TokenType = "Basic" ∧
    vOpq.ValidUntil = worldMiss.now + cfgDemo.RevalidateAfter ∧
    vOpq.Labels = [("group", ["teamB"])] ∧
    storeToken bcOpaque cfgDemo worldMiss "alice" "zzzzzz" [("group", ["teamB"])] =
      .ok vOpq := by
  have H := storeToken_no_plaintext bcOpaque cfgDemo worldMiss "alice" "secret"
    [("group", ["teamB"])] vOpq rfl
  exact ⟨H.1, H.2.1, H.2.2.1, H.2.2.2.1, H.2.2.2.2 "zzzzzz" rfl⟩

/-! Claim C10. -/

/-- C10 (code bug): when the remote answers 200 with the JSON array
`[null]`, the unmarshalled slice holds a nil `*GiteaOrganization` and the
`org.Name` loop dereferences it: `Authenticate` panics instead of
returning a value or an error. -/
theorem authenticate_nil_org_panics :
    fetchUserOrgs worldNullOrg.remote = .ok [none] ∧
    Authenticate bcDemo cfgDemo worldNullOrg "alice" "pw" =
      ⟨.panicked "runtime error: invalid memory address or nil pointer dereference",
        true, none⟩ :=
  ⟨rfl, rfl⟩

end GiteaAuthn
